import Mathlib

/-!
Shallow embedding of the chatbot repository's session store and conversation
engine, and theorems checking the specification's claims against it.

The embedding covers:
* `src/unnamed/part_001` — the AidVocate emergency-request bot: its in-memory
  `userState` record, the helpers `setState`, `getState`, `clearState`,
  `updateEmergencyData`, `addAssistanceType`, `cleanupOldStates`, and the
  message/postback handlers (`handleMessage`, `handlePostback`).
* `src/server/src/server.ts` — the missing-pet report bot's session map:
  `initializeUserSession`/`updateUserSession` and the hourly cleanup interval.

JS `Record<string, T>` / `Map<string, T>` objects are embedded as association
lists keyed by `String`, preserving insertion order (as JS string-keyed
objects and Maps do); property assignment replaces in place, `delete` removes
the entry.  Timestamps (`Date.now()` values) are `Nat` milliseconds.
Outbound `callSendAPI` calls are pure values: each call site in the source is
one constructor of an output type, carrying its dynamic data.  Typing
indicators and console logs are omitted (no observable state).
-/

/-! ## Generic association-list store (JS keyed object / Map) -/

/-- Property read `obj[id]`: the first (unique) binding for `id`. -/
def alGet {α : Type} (st : List (String × α)) (id : String) : Option α :=
  (st.find? (fun p => p.1 == id)).map (fun p => p.2)

/-- Property write `obj[id] = v`: replaces the binding in place if present
(JS keeps the original key position), otherwise adds a new binding. -/
def alSet {α : Type} (st : List (String × α)) (id : String) (v : α) :
    List (String × α) :=
  if st.any (fun p => p.1 == id) then
    st.map (fun p => if p.1 == id then (id, v) else p)
  else
    (id, v) :: st

/-- Embeds `delete obj[id]`. -/
def alErase {α : Type} (st : List (String × α)) (id : String) :
    List (String × α) :=
  st.filter (fun p => !(p.1 == id))

/-! ## String helpers mirroring the JS string methods used by the bot -/

/-- JS whitespace for `String.prototype.trim` (the characters the bot's
inputs can realistically carry). -/
def isJsWhitespace (c : Char) : Bool :=
  c = ' ' || c = '\t' || c = '\n' || c = '\r'

/-- Embeds `text.trim()`. -/
def jsTrim (s : String) : String :=
  String.mk (((s.toList.dropWhile isJsWhitespace).reverse.dropWhile
    isJsWhitespace).reverse)

/-- Embeds `text.toLowerCase()` (ASCII, which is all the keywords need). -/
def jsLower (s : String) : String :=
  String.mk (s.toList.map Char.toLower)

/-- Embeds `text.toUpperCase()` (ASCII). -/
def jsUpper (s : String) : String :=
  String.mk (s.toList.map Char.toUpper)

/-- Whether `sub` occurs as a contiguous substring: `s.includes(sub)`. -/
def listContainsSub (sub : List Char) (s : List Char) : Bool :=
  match s with
  | [] => sub.isEmpty
  | _ :: tail => sub.isPrefixOf s || listContainsSub sub tail

/-- Embeds `s.includes(sub)`. -/
def jsIncludes (s sub : String) : Bool :=
  listContainsSub sub.toList s.toList

/-- Embeds `text.replace(/ /g, "")`: drop space characters only. -/
def removeSpaces (s : String) : String :=
  String.mk (s.toList.filter (fun c => !(c = ' ')))

/-- Value of a hexadecimal digit, if `c` is one. -/
def hexDigitVal (c : Char) : Option Nat :=
  if c.isDigit then some (c.toNat - 48)
  else if 'a' ≤ c ∧ c ≤ 'f' then some (c.toNat - 97 + 10)
  else if 'A' ≤ c ∧ c ≤ 'F' then some (c.toNat - 65 + 10)
  else none

/-- Numeric value of the longest leading run of base-`b` digits, or `none`
when there is no leading digit (`parseInt` returns `NaN` then). -/
def leadingDigitsVal (b : Nat) (isDig : Char → Bool) (dval : Char → Nat) :
    List Char → Option Nat
  | l =>
    let d := l.takeWhile isDig
    if d.isEmpty then none
    else some (d.foldl (fun a c => a * b + dval c) 0)

/-- JS `parseInt(text)` with radix unspecified: skip whitespace, optional
sign, then either a `0x`/`0X` hexadecimal literal or the longest leading
decimal digit run; `none` stands for `NaN`. -/
def jsParseInt (s : String) : Option Int :=
  let l := (jsTrim s).toList
  let signAndRest : Int × List Char :=
    match l with
    | '-' :: r => (-1, r)
    | '+' :: r => (1, r)
    | r => (1, r)
  let sign := signAndRest.1
  let body := signAndRest.2
  let mag : Option Nat :=
    match body with
    | '0' :: x :: r =>
      if x = 'x' ∨ x = 'X' then
        leadingDigitsVal 16 (fun c => (hexDigitVal c).isSome)
          (fun c => (hexDigitVal c).getD 0) r
      else
        leadingDigitsVal 10 Char.isDigit (fun c => c.toNat - 48) body
    | _ => leadingDigitsVal 10 Char.isDigit (fun c => c.toNat - 48) body
  mag.map (fun n => sign * (n : Int))

/-! ## part_001: AidVocate emergency bot — data model -/

namespace AidBot

/-- The ten values of `UserState['state']` in part_001. -/
inductive BotState where
  | start
  | awaiting_assistance_type
  | awaiting_more_assistance
  | awaiting_contact_name
  | awaiting_contact_number
  | awaiting_number_of_people
  | awaiting_urgency_level
  | awaiting_location
  | awaiting_verification_doc
  | awaiting_additional_info
deriving DecidableEq

/-- The `payload.coordinates` of a location attachment.  The source carries JS
numbers; no claim computes with them, so they are embedded as integers
carried opaquely. -/
structure Coordinates where
  lat : Int
  long : Int
deriving DecidableEq

/-- Embeds `interface EmergencyRequest` of part_001. -/
structure EmergencyRequest where
  location : Option String := none
  locationCoords : Option Coordinates := none
  contactName : Option String := none
  contactNumber : Option String := none
  requiredAssistance : Option (List String) := none
  numberOfPeople : Option Int := none
  urgencyLevel : Option String := none
  verificationDoc : Option String := none
  additionalInfo : Option String := none
  timestamp : Nat
  submittedAt : Option Nat := none
deriving DecidableEq

/-- Embeds `interface UserState` of part_001. -/
structure UserState where
  state : BotState
  emergencyData : EmergencyRequest
  timestamp : Nat
deriving DecidableEq

/-- The module-level `const userState: Record<string, UserState>`. -/
abbrev Store := List (String × UserState)

/-- Embeds `const STATE_TIMEOUT_MS = 3600000`. -/
def STATE_TIMEOUT_MS : Nat := 3600000

/-- Embeds `getState(senderId)`. -/
def getState (st : Store) (senderId : String) : Option UserState :=
  alGet st senderId

/-- The fresh record `setState` builds when no state exists:
`{ state, emergencyData: { timestamp: Date.now(), requiredAssistance: [] },
timestamp: Date.now() }`. -/
def freshUserState (s : BotState) (now : Nat) : UserState :=
  { state := s
    emergencyData := { timestamp := now, requiredAssistance := some [] }
    timestamp := now }

/-- Embeds `setState(senderId, state)`: creates a fresh record when absent,
otherwise overwrites `state` and refreshes `timestamp`, leaving
`emergencyData` untouched. -/
def setState (st : Store) (senderId : String) (s : BotState) (now : Nat) :
    Store :=
  match alGet st senderId with
  | none => alSet st senderId (freshUserState s now)
  | some u => alSet st senderId { u with state := s, timestamp := now }

/-- Embeds `clearState(senderId)`. -/
def clearState (st : Store) (senderId : String) : Store :=
  alErase st senderId

/-- Embeds `updateEmergencyData(senderId, data)`: spreads `data` over the existing
`emergencyData` when a state exists, otherwise does nothing.  The partial
object literal at each call site is embedded as the field-update function
`f`.  Note it touches neither `state` nor the activity `timestamp`. -/
def updateEmergencyData (st : Store) (senderId : String)
    (f : EmergencyRequest → EmergencyRequest) : Store :=
  match alGet st senderId with
  | none => st
  | some u => alSet st senderId { u with emergencyData := f u.emergencyData }

/-- Embeds `addAssistanceType(senderId, type)`: appends `type` to
`requiredAssistance` (defaulted to `[]`) unless already present. -/
def addAssistanceType (st : Store) (senderId : String) (ty : String) :
    Store :=
  match alGet st senderId with
  | none => st
  | some u =>
    let current := u.emergencyData.requiredAssistance.getD []
    if current.contains ty then st
    else
      alSet st senderId
        { u with emergencyData :=
            { u.emergencyData with requiredAssistance := some (current ++ [ty]) } }

/-- Whether `cleanupOldStates` evicts a record at time `now`:
`now - userState[userId].timestamp > STATE_TIMEOUT_MS` (JS number
subtraction; a future timestamp gives a negative difference, never above
the threshold, and truncated `Nat` subtraction agrees: both keep it). -/
def expired (now : Nat) (u : UserState) : Bool :=
  decide (now - u.timestamp > STATE_TIMEOUT_MS)

/-- Embeds `cleanupOldStates()`: deletes every record idle past `STATE_TIMEOUT_MS`
and counts the deletions (the `cleaned` counter the source logs).  Iterating
`Object.keys` and deleting by key equals filtering the bindings. -/
def cleanupOldStates (st : Store) (now : Nat) : Store × Nat :=
  (st.filter (fun p => !expired now p.2),
   (st.filter (fun p => expired now p.2)).length)

/-! ### part_001 — conversation engine -/

/-- One inbound attachment: the source dispatches on `attachment.type`
(`"location"` with `payload.coordinates`, `"image"` with `payload.url`,
anything else falls through to the text flow). -/
inductive Attachment where
  | location (coords : Coordinates)
  | image (url : Option String)
  | other (ty : String)
deriving DecidableEq

/-- The `msg` argument of `handleMessage`: optional text, attachment list,
optional `quick_reply.payload`. -/
structure InMessage where
  text : Option String := none
  attachments : List Attachment := []
  quickReply : Option String := none
deriving DecidableEq

/-- Outbound messages: one constructor per `callSendAPI` call site of
part_001 (typing indicators carry no state and are omitted). -/
inductive OutMsg where
  | locationReceivedPrompt (coords : Coordinates)
  | verificationDocReceived
  | imageOutsideVerification
  | assistanceTypeOptions
  | cancelAck
  | welcome
  | moreAssistanceQuestion
  | askContactName
  | invalidNameWarning
  | askContactNumber
  | invalidNumberWarning
  | askPeopleCount
  | invalidPeopleCountWarning
  | urgencyLevelOptions
  | askLocation
  | submittedAck
  | fallbackDidNotUnderstand
  | getStartedWelcome
deriving DecidableEq

/-- The template string `` `${lat}, ${long}` `` stored into `location`. -/
def coordText (c : Coordinates) : String :=
  toString c.lat ++ ", " ++ toString c.long

/-- Embeds `text.toLowerCase().includes("help") || ... .includes("start")` —
the start/help command check at the top of the text flow. -/
def isStartCommand (text : String) : Bool :=
  jsIncludes (jsLower text) "help" || jsIncludes (jsLower text) "sos" ||
  jsIncludes (jsLower text) "emergency" || jsIncludes (jsLower text) "start"

/-- Embeds `text.toLowerCase().includes("cancel") || ... .includes("reset")`. -/
def isCancelCommand (text : String) : Bool :=
  jsIncludes (jsLower text) "cancel" || jsIncludes (jsLower text) "reset"

/-- Embeds `selectedType.charAt(0) + selectedType.slice(1).toLowerCase()`. -/
def capitalizeFirst (s : String) : String :=
  match s.toList with
  | [] => ""
  | c :: rest => String.mk (c :: rest.map Char.toLower)

/-- Embeds the regex test of `^\+?\d\x7b7,15\x7d$`: optional leading `+`, then 7 to 15 digits
and nothing else. -/
def phoneOk (s : String) : Bool :=
  let l := s.toList
  let digits := if l.head? = some '+' then l.tail else l
  digits.all Char.isDigit && decide (7 ≤ digits.length) &&
    decide (digits.length ≤ 15)

/-- The portion of `handleMessage` after the attachment block: command
interception, the no-session welcome, then the `currentState.state`
dispatch.  `currentState` is the value read at the top of `handleMessage`
(before any mutation), exactly as the source captures it.  The states
`start`, `awaiting_location` and `awaiting_verification_doc` have no
handler in the source and fall to the final fallback reply. -/
def handleTextFlow (st : Store) (senderId : String) (text : String)
    (quickReplyPayload : Option String) (currentState : Option UserState)
    (now : Nat) : Store × List OutMsg :=
  if isStartCommand text then
    (setState st senderId .awaiting_assistance_type now,
     [.assistanceTypeOptions])
  else if isCancelCommand text then
    (clearState st senderId, [.cancelAck])
  else
    match currentState with
    | none => (st, [.welcome])
    | some cs =>
      match cs.state with
      | .awaiting_assistance_type =>
        let cleanText := jsUpper text
        let payloadU := quickReplyPayload.map jsUpper
        let validTypes : List String :=
          ["FOOD", "WATER", "MEDICAL", "SHELTER", "CLOTHING", "OTHER"]
        let selectedType : Option String :=
          if validTypes.contains (payloadU.getD "") then payloadU
          else if validTypes.contains cleanText then some cleanText
          else none
        match selectedType with
        | some sel =>
          let capitalizedType := capitalizeFirst sel
          let st1 := addAssistanceType st senderId capitalizedType
          (setState st1 senderId .awaiting_more_assistance now,
           [.moreAssistanceQuestion])
        | none => (st, [.assistanceTypeOptions])
      | .awaiting_more_assistance =>
        if jsLower text = "yes" then
          (setState st senderId .awaiting_assistance_type now,
           [.assistanceTypeOptions])
        else
          (setState st senderId .awaiting_contact_name now,
           [.askContactName])
      | .awaiting_contact_name =>
        if 2 ≤ text.length then
          let st1 := updateEmergencyData st senderId
            (fun d => { d with contactName := some text })
          (setState st1 senderId .awaiting_contact_number now,
           [.askContactNumber])
        else (st, [.invalidNameWarning])
      | .awaiting_contact_number =>
        if phoneOk (removeSpaces text) then
          let st1 := updateEmergencyData st senderId
            (fun d => { d with contactNumber := some text })
          (setState st1 senderId .awaiting_number_of_people now,
           [.askPeopleCount])
        else (st, [.invalidNumberWarning])
      | .awaiting_number_of_people =>
        match jsParseInt text with
        | some num =>
          if 0 < num then
            let st1 := updateEmergencyData st senderId
              (fun d => { d with numberOfPeople := some num })
            (setState st1 senderId .awaiting_urgency_level now,
             [.urgencyLevelOptions])
          else (st, [.invalidPeopleCountWarning])
        | none => (st, [.invalidPeopleCountWarning])
      | .awaiting_urgency_level =>
        let levels : List String := ["LOW", "MEDIUM", "HIGH", "CRITICAL"]
        if levels.contains (jsUpper text) then
          let st1 := updateEmergencyData st senderId
            (fun d => { d with urgencyLevel := some (jsUpper text) })
          (setState st1 senderId .awaiting_location now, [.askLocation])
        else (st, [.urgencyLevelOptions])
      | .awaiting_additional_info =>
        let st1 :=
          if !(jsLower text = "skip") then
            updateEmergencyData st senderId
              (fun d => { d with additionalInfo := some text })
          else st
        (clearState st1 senderId, [.submittedAck])
      | _ => (st, [.fallbackDidNotUnderstand])

/-- Embeds `handleMessage(senderId, msg)`: trims the text, reads the current
state, then handles the first attachment (location unconditionally; image
gated on `awaiting_verification_doc`; any other attachment type falls
through to the text flow, as does the no-attachment case). -/
def handleMessage (st : Store) (senderId : String) (msg : InMessage)
    (now : Nat) : Store × List OutMsg :=
  let text := jsTrim (msg.text.getD "")
  let currentState := getState st senderId
  match msg.attachments with
  | att :: _ =>
    match att with
    | .location c =>
      let st1 := updateEmergencyData st senderId (fun d =>
        { d with locationCoords := some c, location := some (coordText c) })
      (setState st1 senderId .awaiting_verification_doc now,
       [.locationReceivedPrompt c])
    | .image url =>
      if (currentState.map (fun u => u.state)) =
          some .awaiting_verification_doc then
        let st1 := updateEmergencyData st senderId (fun d =>
          { d with verificationDoc := some (url.getD "Image received") })
        (setState st1 senderId .awaiting_additional_info now,
         [.verificationDocReceived])
      else (st, [.imageOutsideVerification])
    | .other _ => handleTextFlow st senderId text msg.quickReply currentState now
  | [] => handleTextFlow st senderId text msg.quickReply currentState now

/-- Embeds `handlePostback(senderId, postback)`. -/
def handlePostback (st : Store) (senderId : String) (payload : String)
    (now : Nat) : Store × List OutMsg :=
  if payload = "GET_STARTED" then
    (setState st senderId .start now, [.getStartedWelcome])
  else (st, [])

/-- One inbound webhook event attributed to a sender: either a message or
a postback, as dispatched by the `/webhook` POST handler. -/
inductive InEvent where
  | message (msg : InMessage)
  | postback (payload : String)

/-- Dispatch of one event, as in the webhook loop. -/
def handleEvent (st : Store) (senderId : String) (e : InEvent) (now : Nat) :
    Store × List OutMsg :=
  match e with
  | .message m => handleMessage st senderId m now
  | .postback p => handlePostback st senderId p now

/-- The store after processing a sequence of (sender, event, time)
triples in order. -/
def runEvents (st : Store) (evs : List (String × InEvent × Nat)) : Store :=
  evs.foldl (fun acc ev => (handleEvent acc ev.1 ev.2.1 ev.2.2).1) st

end AidBot

/-! ## server.ts: missing-pet bot — session store -/

namespace PetBot

/-- Embeds `interface PetReport` of server.ts. -/
structure PetReport where
  animalType : String
  animalName : String
  lastSeenLocation : String
  imageUrls : List String
deriving DecidableEq

/-- Embeds `Partial<PetReport>`, the `currentPet` being filled in. -/
structure PartialPet where
  animalType : Option String := none
  animalName : Option String := none
  lastSeenLocation : Option String := none
  imageUrls : Option (List String) := none
deriving DecidableEq

/-- Embeds `interface UserSession` of server.ts.  `createdAt` is a `Date`; it is
embedded as its millisecond value.  Note there is no last-activity field:
creation time is the only timestamp this variant stores. -/
structure UserSession where
  pets : List PetReport
  currentPet : PartialPet
  contactNo : Option String := none
  contactName : Option String := none
  facebookAccount : Option String := none
  currentStep : String
  createdAt : Nat
  isProcessing : Bool
deriving DecidableEq

/-- Embeds `const userSessions = new Map<string, UserSession>()`. -/
abbrev PetStore := List (String × UserSession)

/-- The hour used by the cleanup interval: `60 * 60 * 1000`. -/
def ONE_HOUR_MS : Nat := 3600000

/-- The session literal built by `initializeUserSession`. -/
def freshSession (now : Nat) : UserSession :=
  { pets := []
    currentPet := { imageUrls := some [] }
    currentStep := "animal_type"
    createdAt := now
    isProcessing := false }

/-- Embeds `initializeUserSession(senderId)`: stores a fresh session (and returns
it to the caller). -/
def newUserSession (st : PetStore) (senderId : String) (now : Nat) :
    PetStore :=
  alSet st senderId (freshSession now)

/-- Embeds `updateUserSession(senderId, updates)`:
`const session = userSessions.get(senderId) || initializeUserSession(senderId)`
followed by `userSessions.set(senderId, { ...session, ...updates })`.
When the sender has no session, `initializeUserSession` inserts a fresh one
and the spread then overwrites that entry with the merged record.  The
partial `updates` object is embedded as the field-update function `f`. -/
def updateUserSession (st : PetStore) (senderId : String)
    (f : UserSession → UserSession) (now : Nat) : PetStore :=
  match alGet st senderId with
  | some s => alSet st senderId (f s)
  | none => alSet (newUserSession st senderId now) senderId (f (freshSession now))

/-- Whether the hourly cleanup deletes a session at time `now`:
`session.createdAt < oneHourAgo` where
`oneHourAgo = new Date(Date.now() - 60 * 60 * 1000)`.  (If `now` is within
the first hour, JS compares against a negative date and deletes nothing;
truncated `Nat` subtraction gives 0 and likewise deletes nothing.) -/
def stale (now : Nat) (s : UserSession) : Bool :=
  decide (s.createdAt < now - ONE_HOUR_MS)

/-- The body of the hourly `setInterval` cleanup: deletes every session
created more than an hour before `now` and counts the deletions. -/
def sweepSessions (st : PetStore) (now : Nat) : PetStore × Nat :=
  (st.filter (fun p => !stale now p.2),
   (st.filter (fun p => stale now p.2)).length)

end PetBot

/-! ## Lemmas about the association-list store -/

theorem alFind_map_set {α : Type} (st : List (String × α)) (id : String)
    (v : α) (h : st.any (fun p => p.1 == id) = true) :
    (st.map (fun p => if p.1 == id then (id, v) else p)).find?
      (fun p => p.1 == id) = some (id, v) := by
  induction st with
  | nil => simp at h
  | cons q tl ih =>
    simp only [List.map_cons]
    by_cases hq : (q.1 == id) = true
    · rw [if_pos hq]
      simp [List.find?]
    · rw [if_neg hq]
      simp only [List.find?, hq]
      apply ih
      simp only [List.any_cons, hq, Bool.false_or] at h
      exact h

theorem alFind_map_set_ne {α : Type} (st : List (String × α))
    (id id' : String) (v : α) (h : id' ≠ id) :
    (st.map (fun p => if p.1 == id then (id, v) else p)).find?
      (fun p => p.1 == id') = st.find? (fun p => p.1 == id') := by
  induction st with
  | nil => rfl
  | cons q tl ih =>
    simp only [List.map_cons]
    by_cases hq : (q.1 == id) = true
    · have hq' : q.1 = id := by simpa using hq
      have h1 : (((id, v) : String × α).1 == id') = false := by
        simp only [beq_eq_false_iff_ne, ne_eq]
        exact Ne.symm h
      have h2 : (q.1 == id') = false := by
        simp only [beq_eq_false_iff_ne, ne_eq, hq']
        exact Ne.symm h
      rw [if_pos hq]
      simp only [List.find?, h1, h2]
      exact ih
    · rw [if_neg hq]
      by_cases hq2 : (q.1 == id') = true
      · simp only [List.find?, hq2]
      · have hq2' : (q.1 == id') = false := by
          simp only [Bool.not_eq_true] at hq2
          exact hq2
        simp only [List.find?, hq2']
        exact ih

theorem alGet_set_self {α : Type} (st : List (String × α)) (id : String)
    (v : α) : alGet (alSet st id v) id = some v := by
  unfold alGet alSet
  by_cases h : st.any (fun p => p.1 == id) = true
  · rw [if_pos h, alFind_map_set st id v h]
    rfl
  · rw [if_neg h]
    simp [List.find?]

theorem alGet_set_ne {α : Type} (st : List (String × α)) (id id' : String)
    (v : α) (h : id' ≠ id) : alGet (alSet st id v) id' = alGet st id' := by
  unfold alGet alSet
  by_cases hany : st.any (fun p => p.1 == id) = true
  · rw [if_pos hany, alFind_map_set_ne st id id' v h]
  · rw [if_neg hany]
    have hne : ((id : String) == id') = false := by
      simp only [beq_eq_false_iff_ne, ne_eq]
      exact Ne.symm h
    simp only [List.find?, hne]

theorem mem_alSet {α : Type} {st : List (String × α)} {id : String}
    {v : α} {p : String × α} (hp : p ∈ alSet st id v) :
    p = (id, v) ∨ p ∈ st := by
  unfold alSet at hp
  by_cases hany : st.any (fun q => q.1 == id) = true
  · rw [if_pos hany] at hp
    obtain ⟨q, hqmem, hq⟩ := List.mem_map.mp hp
    by_cases hqi : (q.1 == id) = true
    · left; rw [if_pos hqi] at hq; exact hq.symm
    · right; rw [if_neg hqi] at hq; exact hq ▸ hqmem
  · rw [if_neg hany] at hp
    exact List.mem_cons.mp hp

theorem mem_alSet_key {α : Type} {st : List (String × α)} {id : String}
    {v : α} {p : String × α} (hp : p ∈ alSet st id v) (hk : p.1 = id) :
    p = (id, v) := by
  unfold alSet at hp
  by_cases hany : st.any (fun q => q.1 == id) = true
  · rw [if_pos hany] at hp
    obtain ⟨q, hqmem, hq⟩ := List.mem_map.mp hp
    by_cases hqi : (q.1 == id) = true
    · rw [if_pos hqi] at hq; exact hq.symm
    · rw [if_neg hqi] at hq
      subst hq
      exact absurd (by simp only [beq_iff_eq]; exact hk) hqi
  · rw [if_neg hany] at hp
    rcases List.mem_cons.mp hp with h1 | h1
    · exact h1
    · exact absurd (List.any_eq_true.mpr
        ⟨p, h1, by simp only [beq_iff_eq]; exact hk⟩) hany

theorem alGet_mem {α : Type} {st : List (String × α)} {id : String} {v : α}
    (h : alGet st id = some v) : (id, v) ∈ st := by
  unfold alGet at h
  cases hf : st.find? (fun p => p.1 == id) with
  | none => rw [hf] at h; exact absurd h (by simp)
  | some q =>
    rw [hf] at h
    have hq1 := List.find?_some hf
    have hmem := List.mem_of_find?_eq_some hf
    obtain ⟨a, b⟩ := q
    have hid : a = id := by simpa using hq1
    have hv : b = v := by simpa using h
    subst hid
    subst hv
    exact hmem

theorem alGet_erase_self {α : Type} (st : List (String × α)) (id : String) :
    alGet (alErase st id) id = none := by
  unfold alGet alErase
  induction st with
  | nil => rfl
  | cons q tl ih =>
    rw [List.filter_cons]
    by_cases hq : (q.1 == id) = true
    · simp only [hq, Bool.not_true, if_neg (by simp : ¬(false = true))]
      exact ih
    · have hq' : (q.1 == id) = false := by
        simp only [Bool.not_eq_true] at hq
        exact hq
      simp only [hq', Bool.not_false, if_pos rfl, List.find?]
      exact ih

theorem alGet_erase_ne {α : Type} (st : List (String × α)) (id id' : String)
    (h : id' ≠ id) : alGet (alErase st id) id' = alGet st id' := by
  unfold alGet alErase
  induction st with
  | nil => rfl
  | cons q tl ih =>
    rw [List.filter_cons]
    by_cases hq : (q.1 == id) = true
    · have hq' : q.1 = id := by simpa using hq
      have h2 : (q.1 == id') = false := by
        simp only [beq_eq_false_iff_ne, ne_eq, hq']
        exact Ne.symm h
      simp only [hq, Bool.not_true, if_neg (by simp : ¬(false = true)),
        List.find?, h2]
      exact ih
    · have hq' : (q.1 == id) = false := by
        simp only [Bool.not_eq_true] at hq
        exact hq
      simp only [hq', Bool.not_false, if_pos rfl]
      by_cases hq2 : (q.1 == id') = true
      · simp only [List.find?, hq2]
      · have hq2' : (q.1 == id') = false := by
          simp only [Bool.not_eq_true] at hq2
          exact hq2
        simp only [List.find?, hq2']
        exact ih

theorem mem_alErase {α : Type} {st : List (String × α)} {id : String}
    {p : String × α} (hp : p ∈ alErase st id) : p ∈ st :=
  List.mem_of_mem_filter hp

theorem alGet_filter {α : Type} (st : List (String × α)) (id : String)
    (keep : String × α → Bool)
    (h : ∀ p ∈ st, p.1 = id → keep p = true) :
    alGet (st.filter keep) id = alGet st id := by
  unfold alGet
  induction st with
  | nil => rfl
  | cons q tl ih =>
    rw [List.filter_cons]
    by_cases hq : (q.1 == id) = true
    · have hq' : q.1 = id := by simpa using hq
      have hk : keep q = true := h q (List.mem_cons_self q tl) hq'
      rw [if_pos hk]
      simp only [List.find?, hq]
    · have hq' : (q.1 == id) = false := by
        simp only [Bool.not_eq_true] at hq
        exact hq
      have ih' := ih (fun p hp hpk => h p (List.mem_cons_of_mem q hp) hpk)
      by_cases hk : keep q = true
      · rw [if_pos hk]
        simp only [List.find?, hq']
        exact ih'
      · rw [if_neg hk]
        simp only [List.find?, hq']
        exact ih'

/-! ## Lemmas about the part_001 store helpers -/

namespace AidBot

theorem getState_setState_present {st : Store} {senderId : String}
    {u : UserState} (s : BotState) (now : Nat)
    (h : getState st senderId = some u) :
    getState (setState st senderId s now) senderId =
      some { u with state := s, timestamp := now } := by
  unfold getState setState
  unfold getState at h
  rw [h]
  exact alGet_set_self st senderId _

theorem getState_setState_absent {st : Store} {senderId : String}
    (s : BotState) (now : Nat) (h : getState st senderId = none) :
    getState (setState st senderId s now) senderId =
      some (freshUserState s now) := by
  unfold getState setState
  unfold getState at h
  rw [h]
  exact alGet_set_self st senderId _

theorem getState_setState_ne {st : Store} {senderId other : String}
    (s : BotState) (now : Nat) (h : other ≠ senderId) :
    getState (setState st senderId s now) other = getState st other := by
  unfold getState setState
  cases alGet st senderId with
  | none => exact alGet_set_ne st senderId other _ h
  | some u => exact alGet_set_ne st senderId other _ h

/-- Every binding of `setState st senderId s now` whose key is `senderId`
carries activity timestamp `now`. -/
theorem setState_key_timestamp {st : Store} {senderId : String}
    {s : BotState} {now : Nat} {p : String × UserState}
    (hp : p ∈ setState st senderId s now) (hk : p.1 = senderId) :
    p.2.timestamp = now := by
  unfold setState at hp
  cases h : alGet st senderId with
  | none =>
    rw [h] at hp
    simp only at hp
    rw [mem_alSet_key hp hk]
    rfl
  | some u =>
    rw [h] at hp
    simp only at hp
    rw [mem_alSet_key hp hk]

end AidBot

/-! ## Helper lemmas about part_001 operations -/

namespace AidBot

theorem getState_updateED_present {st : Store} {senderId : String}
    {u : UserState} (f : EmergencyRequest → EmergencyRequest)
    (h : getState st senderId = some u) :
    getState (updateEmergencyData st senderId f) senderId =
      some { u with emergencyData := f u.emergencyData } := by
  unfold getState at h ⊢
  unfold updateEmergencyData
  rw [h]
  simp only
  exact alGet_set_self st senderId _

theorem updateED_absent {st : Store} {senderId : String}
    (f : EmergencyRequest → EmergencyRequest)
    (h : getState st senderId = none) :
    updateEmergencyData st senderId f = st := by
  unfold getState at h
  unfold updateEmergencyData
  rw [h]

/-- Any message whose (trimmed) text contains a start/help keyword is
intercepted before the state dispatch: the sender's record is reset to the
assistance-type entry step whatever its current step was (or created if
absent), and the assistance-type options are the only reply. -/
theorem handleMessage_start (st : Store) (senderId : String) (t : String)
    (q : Option String) (now : Nat)
    (h : isStartCommand (jsTrim t) = true) :
    handleMessage st senderId
        { text := some t, attachments := [], quickReply := q } now =
      (setState st senderId .awaiting_assistance_type now,
       [.assistanceTypeOptions]) := by
  unfold handleMessage
  dsimp only
  unfold handleTextFlow
  simp only [Option.getD_some]
  rw [if_pos h]

end AidBot

/-! ## Claim C3 — restart interception -/

/-- C3 (amended).  Restart interception fires whenever the trimmed message
text contains a start/help keyword (`help`/`sos`/`emergency`/`start`,
case-insensitive substring), regardless of whether the sender has a
session and regardless of its current step: the session is created or
reset at the assistance-type entry step and that step's options prompt is
the only reply.  A sender mid-flow at a non-terminal collection step is
therefore restarted too, not handled by the current step's logic. -/
theorem restart_interception :
    ∀ (st : AidBot.Store) (senderId t : String) (q : Option String)
      (now : Nat),
      AidBot.isStartCommand (jsTrim t) = true →
      AidBot.handleMessage st senderId
          { text := some t, attachments := [], quickReply := q } now =
        (AidBot.setState st senderId
          AidBot.BotState.awaiting_assistance_type now,
         [AidBot.OutMsg.assistanceTypeOptions]) :=
  fun st senderId t q now h =>
    AidBot.handleMessage_start st senderId t q now h

/-- Witness for C3's theorem: a sender with no session typing "help". -/
theorem restart_interception_witness :
    AidBot.handleMessage ([] : AidBot.Store) "u"
        { text := some "help", attachments := [], quickReply := none } 5 =
      (AidBot.setState [] "u" AidBot.BotState.awaiting_assistance_type 5,
       [AidBot.OutMsg.assistanceTypeOptions]) :=
  restart_interception [] "u" "help" none 5 (by decide)

/-- C3 counterexample.  A sender mid-flow at the (non-terminal) contact-name
step who types "help" is restarted — the step's own logic (which accepts any
text of length ≥ 2 as the contact name and advances to the contact-number
step) does not run: the state is reset to the entry step and no
`contactName` is written. -/
theorem restart_midflow_counterexample :
    AidBot.handleMessage
        [("u", { state := AidBot.BotState.awaiting_contact_name,
                 emergencyData := { timestamp := 0,
                                    requiredAssistance := some [] },
                 timestamp := 0 })]
        "u" { text := some "help", attachments := [], quickReply := none }
        9 =
      ([("u", { state := AidBot.BotState.awaiting_assistance_type,
                emergencyData := { timestamp := 0,
                                   requiredAssistance := some [] },
                timestamp := 9 })],
       [AidBot.OutMsg.assistanceTypeOptions]) := by
  rfl

/-! ## Claim C9 — restart preserves collected data -/

/-- C9 (confirmed).  A sender with an existing session who sends a
start/help keyword has the state reset to the assistance-type entry step
with the activity timestamp refreshed to `now`, while the whole
`emergencyData` record — `requiredAssistance`, contact name, contact
number, and every other collected field — is preserved unchanged. -/
theorem restart_preserves_collected :
    ∀ (st : AidBot.Store) (senderId : String) (u : AidBot.UserState)
      (t : String) (q : Option String) (now : Nat),
      AidBot.getState st senderId = some u →
      AidBot.isStartCommand (jsTrim t) = true →
      AidBot.getState
          ((AidBot.handleMessage st senderId
            { text := some t, attachments := [], quickReply := q } now).1)
          senderId =
        some { state := AidBot.BotState.awaiting_assistance_type,
               emergencyData := u.emergencyData,
               timestamp := now } := by
  intro st senderId u t q now hu ht
  rw [AidBot.handleMessage_start st senderId t q now ht]
  exact AidBot.getState_setState_present _ now hu

/-- Witness for C9's theorem: a mid-flow session with collected fields
keeps them across a "help" restart. -/
theorem restart_preserves_collected_witness :
    AidBot.getState
        ((AidBot.handleMessage
          [("u", { state := AidBot.BotState.awaiting_number_of_people,
                   emergencyData := { timestamp := 1,
                                      requiredAssistance := some ["Food"],
                                      contactName := some "Ana",
                                      contactNumber := some "09123456789" },
                   timestamp := 2 })]
          "u" { text := some "help", attachments := [], quickReply := none }
          7).1) "u" =
      some { state := AidBot.BotState.awaiting_assistance_type,
             emergencyData := { timestamp := 1,
                                requiredAssistance := some ["Food"],
                                contactName := some "Ana",
                                contactNumber := some "09123456789" },
             timestamp := 7 } :=
  restart_preserves_collected
    [("u", { state := AidBot.BotState.awaiting_number_of_people,
             emergencyData := { timestamp := 1,
                                requiredAssistance := some ["Food"],
                                contactName := some "Ana",
                                contactNumber := some "09123456789" },
             timestamp := 2 })]
    "u"
    { state := AidBot.BotState.awaiting_number_of_people,
      emergencyData := { timestamp := 1,
                         requiredAssistance := some ["Food"],
                         contactName := some "Ana",
                         contactNumber := some "09123456789" },
      timestamp := 2 }
    "help" none 7 (by decide) (by decide)

/-! ## Claim C7 — location attachments -/

/-- C7 (amended).  A location attachment is accepted at every step, not
only at a location-collection step: whatever the sender's current step —
and even with no session at all — the handler stores the coordinates into
`emergencyData` (when a session exists), moves the step to
`awaiting_verification_doc` (creating a session there when none existed),
and replies with the location-received prompt.  There is no step gating
and no re-prompt. -/
theorem location_attachment_behavior :
    (∀ (st : AidBot.Store) (senderId : String) (c : AidBot.Coordinates)
        (t q : Option String) (rest : List AidBot.Attachment) (now : Nat),
        AidBot.handleMessage st senderId
            { text := t, attachments := AidBot.Attachment.location c :: rest,
              quickReply := q } now =
          (AidBot.setState
            (AidBot.updateEmergencyData st senderId (fun d =>
              { d with locationCoords := some c,
                       location := some (AidBot.coordText c) }))
            senderId AidBot.BotState.awaiting_verification_doc now,
           [AidBot.OutMsg.locationReceivedPrompt c])) ∧
    (∀ (st : AidBot.Store) (senderId : String) (u : AidBot.UserState)
        (c : AidBot.Coordinates) (t q : Option String)
        (rest : List AidBot.Attachment) (now : Nat),
        AidBot.getState st senderId = some u →
        AidBot.getState
            ((AidBot.handleMessage st senderId
              { text := t,
                attachments := AidBot.Attachment.location c :: rest,
                quickReply := q } now).1) senderId =
          some { state := AidBot.BotState.awaiting_verification_doc,
                 emergencyData :=
                   { u.emergencyData with
                     locationCoords := some c,
                     location := some (AidBot.coordText c) },
                 timestamp := now }) ∧
    (∀ (st : AidBot.Store) (senderId : String) (c : AidBot.Coordinates)
        (t q : Option String) (rest : List AidBot.Attachment) (now : Nat),
        AidBot.getState st senderId = none →
        AidBot.getState
            ((AidBot.handleMessage st senderId
              { text := t,
                attachments := AidBot.Attachment.location c :: rest,
                quickReply := q } now).1) senderId =
          some (AidBot.freshUserState
            AidBot.BotState.awaiting_verification_doc now)) := by
  have heq : ∀ (st : AidBot.Store) (senderId : String)
      (c : AidBot.Coordinates) (t q : Option String)
      (rest : List AidBot.Attachment) (now : Nat),
      AidBot.handleMessage st senderId
          { text := t, attachments := AidBot.Attachment.location c :: rest,
            quickReply := q } now =
        (AidBot.setState
          (AidBot.updateEmergencyData st senderId (fun d =>
            { d with locationCoords := some c,
                     location := some (AidBot.coordText c) }))
          senderId AidBot.BotState.awaiting_verification_doc now,
         [AidBot.OutMsg.locationReceivedPrompt c]) := by
    intro st senderId c t q rest now
    rfl
  refine ⟨heq, ?_, ?_⟩
  · intro st senderId u c t q rest now hu
    rw [heq]
    exact AidBot.getState_setState_present _ now
      (AidBot.getState_updateED_present _ hu)
  · intro st senderId c t q rest now hn
    rw [heq]
    have h1 : AidBot.updateEmergencyData st senderId (fun d =>
        { d with locationCoords := some c,
                 location := some (AidBot.coordText c) }) = st :=
      AidBot.updateED_absent _ hn
    rw [h1]
    exact AidBot.getState_setState_absent _ now hn

/-- Witness for C7's theorem at concrete stores: a mid-flow session and an
absent sender both land at the verification-document step. -/
theorem location_attachment_behavior_witness :
    AidBot.getState
        ((AidBot.handleMessage
          [("u", { state := AidBot.BotState.awaiting_contact_name,
                   emergencyData := { timestamp := 1,
                                      requiredAssistance := some [] },
                   timestamp := 1 })]
          "u"
          { text := none,
            attachments := [AidBot.Attachment.location { lat := 14, long := 121 }],
            quickReply := none } 6).1) "u" =
      some { state := AidBot.BotState.awaiting_verification_doc,
             emergencyData :=
               { timestamp := 1, requiredAssistance := some [],
                 locationCoords := some { lat := 14, long := 121 },
                 location := some (AidBot.coordText { lat := 14, long := 121 }) },
             timestamp := 6 } ∧
    AidBot.getState
        ((AidBot.handleMessage ([] : AidBot.Store) "v"
          { text := none,
            attachments := [AidBot.Attachment.location { lat := 14, long := 121 }],
            quickReply := none } 6).1) "v" =
      some (AidBot.freshUserState
        AidBot.BotState.awaiting_verification_doc 6) :=
  ⟨location_attachment_behavior.2.1
      [("u", { state := AidBot.BotState.awaiting_contact_name,
               emergencyData := { timestamp := 1,
                                  requiredAssistance := some [] },
               timestamp := 1 })]
      "u"
      { state := AidBot.BotState.awaiting_contact_name,
        emergencyData := { timestamp := 1, requiredAssistance := some [] },
        timestamp := 1 }
      { lat := 14, long := 121 } none none [] 6 (by decide),
   location_attachment_behavior.2.2 [] "v" { lat := 14, long := 121 }
      none none [] 6 (by decide)⟩

/-- C7 counterexample.  A sender at the contact-name step — not a
location-collection step — sends a location attachment; the claim says this
yields a re-prompt and no session change, but the code stores the
coordinates and jumps the step to `awaiting_verification_doc`. -/
theorem location_attachment_counterexample :
    AidBot.handleMessage
        [("u", { state := AidBot.BotState.awaiting_contact_name,
                 emergencyData := { timestamp := 0,
                                    requiredAssistance := some [] },
                 timestamp := 0 })]
        "u"
        { text := none,
          attachments := [AidBot.Attachment.location { lat := 14, long := 121 }],
          quickReply := none } 9 =
      ([("u", { state := AidBot.BotState.awaiting_verification_doc,
                emergencyData :=
                  { timestamp := 0, requiredAssistance := some [],
                    locationCoords := some { lat := 14, long := 121 },
                    location := some "14, 121" },
                timestamp := 9 })],
       [AidBot.OutMsg.locationReceivedPrompt { lat := 14, long := 121 }]) := by
  rfl

/-! ## Duplicate-freeness machinery for `requiredAssistance` (claim C10) -/

namespace AidBot

/-- The `requiredAssistance` list of a record, defaulted to `[]` exactly
as `addAssistanceType` reads it. -/
def assistList (u : UserState) : List String :=
  u.emergencyData.requiredAssistance.getD []

/-- Invariant: every stored session's `requiredAssistance` list is
duplicate-free. -/
def NodupAssist (st : Store) : Prop :=
  ∀ p ∈ st, (assistList p.2).Nodup

theorem nodupAssist_nil : NodupAssist [] := by
  intro p hp
  cases hp

theorem nodupAssist_alSet {st : Store} {senderId : String} {u : UserState}
    (h : NodupAssist st) (hu : (assistList u).Nodup) :
    NodupAssist (alSet st senderId u) := by
  intro p hp
  rcases mem_alSet hp with h1 | h1
  · rw [h1]; exact hu
  · exact h p h1

theorem nodupAssist_of_get {st : Store} {senderId : String}
    {u : UserState} (h : NodupAssist st)
    (hg : getState st senderId = some u) : (assistList u).Nodup :=
  h (senderId, u) (alGet_mem hg)

theorem nodupAssist_setState {st : Store} (senderId : String)
    (s : BotState) (now : Nat) (h : NodupAssist st) :
    NodupAssist (setState st senderId s now) := by
  unfold setState
  cases hg : alGet st senderId with
  | none =>
    exact nodupAssist_alSet h List.nodup_nil
  | some u =>
    have hu : (assistList u).Nodup := nodupAssist_of_get h hg
    exact nodupAssist_alSet h hu

theorem nodupAssist_clearState {st : Store} (senderId : String)
    (h : NodupAssist st) : NodupAssist (clearState st senderId) :=
  fun p hp => h p (mem_alErase hp)

theorem nodupAssist_updateED {st : Store} (senderId : String)
    {f : EmergencyRequest → EmergencyRequest}
    (hf : ∀ d, (f d).requiredAssistance = d.requiredAssistance)
    (h : NodupAssist st) :
    NodupAssist (updateEmergencyData st senderId f) := by
  unfold updateEmergencyData
  cases hg : alGet st senderId with
  | none => exact h
  | some u =>
    apply nodupAssist_alSet h
    have hn := nodupAssist_of_get h hg
    unfold assistList at hn ⊢
    dsimp only
    rw [hf]
    exact hn

theorem nodupAssist_add {st : Store} (senderId ty : String)
    (h : NodupAssist st) :
    NodupAssist (addAssistanceType st senderId ty) := by
  unfold addAssistanceType
  cases hg : alGet st senderId with
  | none => exact h
  | some u =>
    dsimp only
    by_cases hc :
        (u.emergencyData.requiredAssistance.getD []).contains ty = true
    · rw [if_pos hc]
      exact h
    · rw [if_neg hc]
      apply nodupAssist_alSet h
      have hn := nodupAssist_of_get h hg
      have hnotmem : ty ∉ u.emergencyData.requiredAssistance.getD [] := by
        intro hmem
        exact hc (List.elem_iff.mpr hmem)
      unfold assistList at hn ⊢
      dsimp only
      refine List.Nodup.append hn (List.nodup_singleton ty) ?_
      intro a ha hb
      rw [List.mem_singleton] at hb
      subst hb
      exact hnotmem ha

theorem nodupAssist_handleTextFlow (st : Store) (senderId text : String)
    (q : Option String) (cs : Option UserState) (now : Nat)
    (h : NodupAssist st) :
    NodupAssist (handleTextFlow st senderId text q cs now).1 := by
  unfold handleTextFlow
  dsimp only
  repeat' (first | split | dsimp only)
  all_goals
    first
      | exact h
      | exact nodupAssist_setState senderId _ now h
      | exact nodupAssist_clearState senderId h
      | exact nodupAssist_setState senderId _ now
          (nodupAssist_add senderId _ h)
      | exact nodupAssist_setState senderId _ now
          (nodupAssist_updateED senderId (fun d => rfl) h)
      | exact nodupAssist_clearState senderId
          (nodupAssist_updateED senderId (fun d => rfl) h)

theorem nodupAssist_handleMessage (st : Store) (senderId : String)
    (msg : InMessage) (now : Nat) (h : NodupAssist st) :
    NodupAssist (handleMessage st senderId msg now).1 := by
  unfold handleMessage
  dsimp only
  cases hatt : msg.attachments with
  | nil => exact nodupAssist_handleTextFlow st senderId _ _ _ now h
  | cons a rest =>
    cases a with
    | location c =>
      exact nodupAssist_setState senderId _ now
        (nodupAssist_updateED senderId (fun d => rfl) h)
    | image url =>
      dsimp only
      split
      · exact nodupAssist_setState senderId _ now
          (nodupAssist_updateED senderId (fun d => rfl) h)
      · exact h
    | other ty => exact nodupAssist_handleTextFlow st senderId _ _ _ now h

theorem nodupAssist_handlePostback (st : Store)
    (senderId payload : String) (now : Nat) (h : NodupAssist st) :
    NodupAssist (handlePostback st senderId payload now).1 := by
  unfold handlePostback
  split
  · exact nodupAssist_setState senderId _ now h
  · exact h

theorem nodupAssist_handleEvent (st : Store) (senderId : String)
    (e : InEvent) (now : Nat) (h : NodupAssist st) :
    NodupAssist (handleEvent st senderId e now).1 := by
  cases e with
  | message m => exact nodupAssist_handleMessage st senderId m now h
  | postback p => exact nodupAssist_handlePostback st senderId p now h

theorem nodupAssist_runEvents (evs : List (String × InEvent × Nat)) :
    ∀ st : Store, NodupAssist st → NodupAssist (runEvents st evs) := by
  induction evs with
  | nil => intro st h; exact h
  | cons ev tl ih =>
    intro st h
    exact ih _ (nodupAssist_handleEvent st ev.1 ev.2.1 ev.2.2 h)

end AidBot

/-! ## Claim C10 — `requiredAssistance` is duplicate-free -/

/-- C10 (confirmed).  Adding an assistance type that is already recorded
leaves the store completely unchanged (first conjunct), and for every
sender and every sequence of inbound events — messages of any shape and
postbacks — processed from the initial empty store, every session's
`requiredAssistance` list is duplicate-free (second conjunct). -/
theorem assistance_nodup_invariant :
    (∀ (st : AidBot.Store) (senderId ty : String) (u : AidBot.UserState),
        AidBot.getState st senderId = some u →
        ty ∈ AidBot.assistList u →
        AidBot.addAssistanceType st senderId ty = st) ∧
    (∀ evs : List (String × AidBot.InEvent × Nat),
        AidBot.NodupAssist (AidBot.runEvents [] evs)) := by
  constructor
  · intro st senderId ty u hg hmem
    unfold AidBot.addAssistanceType
    unfold AidBot.getState at hg
    rw [hg]
    dsimp only
    have hc : (u.emergencyData.requiredAssistance.getD []).contains ty =
        true :=
      List.elem_iff.mpr hmem
    rw [if_pos hc]
  · intro evs
    exact AidBot.nodupAssist_runEvents evs [] AidBot.nodupAssist_nil

/-- Witness for C10's theorem: re-adding "Food" to a session that already
lists it is a no-op, and a short concrete event sequence preserves
duplicate-freeness. -/
theorem assistance_nodup_invariant_witness :
    AidBot.addAssistanceType
        [("u", { state := AidBot.BotState.awaiting_more_assistance,
                 emergencyData := { timestamp := 0,
                                    requiredAssistance := some ["Food"] },
                 timestamp := 0 })]
        "u" "Food" =
      [("u", { state := AidBot.BotState.awaiting_more_assistance,
               emergencyData := { timestamp := 0,
                                  requiredAssistance := some ["Food"] },
               timestamp := 0 })] ∧
    AidBot.NodupAssist (AidBot.runEvents []
      [("u", AidBot.InEvent.message { text := some "help" }, 0),
       ("u", AidBot.InEvent.message { text := some "Food" }, 1)]) :=
  ⟨assistance_nodup_invariant.1
      [("u", { state := AidBot.BotState.awaiting_more_assistance,
               emergencyData := { timestamp := 0,
                                  requiredAssistance := some ["Food"] },
               timestamp := 0 })]
      "u" "Food"
      { state := AidBot.BotState.awaiting_more_assistance,
        emergencyData := { timestamp := 0,
                           requiredAssistance := some ["Food"] },
        timestamp := 0 }
      (by decide) (by decide),
   assistance_nodup_invariant.2
      [("u", AidBot.InEvent.message { text := some "help" }, 0),
       ("u", AidBot.InEvent.message { text := some "Food" }, 1)]⟩

/-! ## Claim C1 — validation failure at the people-count step -/

/-- C1 (amended).  For a sender whose session is at the people-count step,
a text message (no attachments) whose trimmed text contains no global
command keyword (start/help/sos/emergency and cancel/reset) and does not
`parseInt` to a positive integer is answered with the people-count failure
re-prompt, and the whole store — current step, collected fields, and even
the activity timestamp — is left completely unchanged. -/
theorem people_count_invalid_frame :
    ∀ (st : AidBot.Store) (senderId : String) (u : AidBot.UserState)
      (t : String) (q : Option String) (now : Nat),
      AidBot.getState st senderId = some u →
      u.state = AidBot.BotState.awaiting_number_of_people →
      AidBot.isStartCommand (jsTrim t) = false →
      AidBot.isCancelCommand (jsTrim t) = false →
      (∀ n : Int, jsParseInt (jsTrim t) = some n → n ≤ 0) →
      AidBot.handleMessage st senderId
          { text := some t, attachments := [], quickReply := q } now =
        (st, [AidBot.OutMsg.invalidPeopleCountWarning]) := by
  intro st senderId u t q now hu hs h1 h2 hp
  unfold AidBot.handleMessage
  dsimp only
  unfold AidBot.handleTextFlow
  simp only [Option.getD_some]
  rw [if_neg (by simp [h1]), if_neg (by simp [h2]), hu]
  dsimp only
  rw [hs]
  dsimp only
  cases hparse : jsParseInt (jsTrim t) with
  | none => rfl
  | some n =>
    have hn := hp n hparse
    dsimp only
    rw [if_neg (by omega : ¬(0 < n))]

/-- Witness for C1's theorem: the claim's own examples "abc" (parses to
NaN) and "-3" (parses to a nonpositive integer). -/
theorem people_count_invalid_frame_witness :
    AidBot.handleMessage
        [("u", { state := AidBot.BotState.awaiting_number_of_people,
                 emergencyData := { timestamp := 0,
                                    requiredAssistance := some [] },
                 timestamp := 0 })]
        "u" { text := some "abc", attachments := [], quickReply := none }
        9 =
      ([("u", { state := AidBot.BotState.awaiting_number_of_people,
                emergencyData := { timestamp := 0,
                                   requiredAssistance := some [] },
                timestamp := 0 })],
       [AidBot.OutMsg.invalidPeopleCountWarning]) ∧
    AidBot.handleMessage
        [("u", { state := AidBot.BotState.awaiting_number_of_people,
                 emergencyData := { timestamp := 0,
                                    requiredAssistance := some [] },
                 timestamp := 0 })]
        "u" { text := some "-3", attachments := [], quickReply := none }
        9 =
      ([("u", { state := AidBot.BotState.awaiting_number_of_people,
                emergencyData := { timestamp := 0,
                                   requiredAssistance := some [] },
                timestamp := 0 })],
       [AidBot.OutMsg.invalidPeopleCountWarning]) :=
  ⟨people_count_invalid_frame
      [("u", { state := AidBot.BotState.awaiting_number_of_people,
               emergencyData := { timestamp := 0,
                                  requiredAssistance := some [] },
               timestamp := 0 })]
      "u"
      { state := AidBot.BotState.awaiting_number_of_people,
        emergencyData := { timestamp := 0, requiredAssistance := some [] },
        timestamp := 0 }
      "abc" none 9 (by decide) (by decide) (by decide) (by decide)
      (by
        intro n hn
        rw [(by decide : jsParseInt (jsTrim "abc") = none)] at hn
        exact Option.noConfusion hn),
   people_count_invalid_frame
      [("u", { state := AidBot.BotState.awaiting_number_of_people,
               emergencyData := { timestamp := 0,
                                  requiredAssistance := some [] },
               timestamp := 0 })]
      "u"
      { state := AidBot.BotState.awaiting_number_of_people,
        emergencyData := { timestamp := 0, requiredAssistance := some [] },
        timestamp := 0 }
      "-3" none 9 (by decide) (by decide) (by decide) (by decide)
      (by
        intro n hn
        rw [(by decide : jsParseInt (jsTrim "-3") = some (-3))] at hn
        cases hn
        decide)⟩

/-- C1 counterexample.  "help" is a text input that does not parse to a
positive integer, yet handling it at the people-count step does not emit
the failure re-prompt and does not leave the session unchanged: the
command interception resets `currentStep` to the assistance-type entry
step. -/
theorem people_count_help_counterexample :
    jsParseInt (jsTrim "help") = none ∧
    AidBot.handleMessage
        [("u", { state := AidBot.BotState.awaiting_number_of_people,
                 emergencyData := { timestamp := 0,
                                    requiredAssistance := some [] },
                 timestamp := 0 })]
        "u" { text := some "help", attachments := [], quickReply := none }
        9 =
      ([("u", { state := AidBot.BotState.awaiting_assistance_type,
                emergencyData := { timestamp := 0,
                                   requiredAssistance := some [] },
                timestamp := 9 })],
       [AidBot.OutMsg.assistanceTypeOptions]) := by
  exact ⟨by decide, by rfl⟩

/-! ## Claim C6 — urgency step -/

/-- C6 (amended).  At the urgency step the handler matches the message
TEXT (uppercased) against LOW/MEDIUM/HIGH/CRITICAL; the quick-reply
payload is never consulted, and the payloads this bot's urgency buttons
carry are "LOW".."CRITICAL", not "URGENCY_*".  Tapping the Critical button
delivers text "Critical" (with payload "CRITICAL"): that stores
`urgencyLevel = "CRITICAL"` and advances to the LOCATION step, emitting
the location prompt — not the people-count step, which in this flow comes
before urgency. -/
theorem urgency_critical_text :
    ∀ (st : AidBot.Store) (senderId : String) (u : AidBot.UserState)
      (q : Option String) (now : Nat),
      AidBot.getState st senderId = some u →
      u.state = AidBot.BotState.awaiting_urgency_level →
      AidBot.handleMessage st senderId
          { text := some "Critical", attachments := [], quickReply := q }
          now =
        (AidBot.setState
          (AidBot.updateEmergencyData st senderId (fun d =>
            { d with urgencyLevel := some "CRITICAL" }))
          senderId AidBot.BotState.awaiting_location now,
         [AidBot.OutMsg.askLocation]) ∧
      AidBot.getState
          ((AidBot.handleMessage st senderId
            { text := some "Critical", attachments := [], quickReply := q }
            now).1) senderId =
        some { state := AidBot.BotState.awaiting_location,
               emergencyData :=
                 { u.emergencyData with urgencyLevel := some "CRITICAL" },
               timestamp := now } := by
  intro st senderId u q now hu hs
  have heq : AidBot.handleMessage st senderId
      { text := some "Critical", attachments := [], quickReply := q } now =
    (AidBot.setState
      (AidBot.updateEmergencyData st senderId (fun d =>
        { d with urgencyLevel := some "CRITICAL" }))
      senderId AidBot.BotState.awaiting_location now,
     [AidBot.OutMsg.askLocation]) := by
    unfold AidBot.handleMessage
    dsimp only
    unfold AidBot.handleTextFlow
    simp only [Option.getD_some]
    rw [if_neg (by decide), if_neg (by decide), hu]
    dsimp only
    rw [hs]
    dsimp only
    rw [if_pos (by decide)]
    simp only [(by decide : jsUpper (jsTrim "Critical") = "CRITICAL")]
  refine ⟨heq, ?_⟩
  rw [heq]
  exact AidBot.getState_setState_present _ now
    (AidBot.getState_updateED_present _ hu)

/-- Witness for C6's theorem at a concrete mid-flow store. -/
theorem urgency_critical_text_witness :
    AidBot.getState
        ((AidBot.handleMessage
          [("u", { state := AidBot.BotState.awaiting_urgency_level,
                   emergencyData := { timestamp := 1,
                                      requiredAssistance := some ["Food"],
                                      numberOfPeople := some 4 },
                   timestamp := 2 })]
          "u"
          { text := some "Critical", attachments := [],
            quickReply := some "CRITICAL" } 7).1) "u" =
      some { state := AidBot.BotState.awaiting_location,
             emergencyData := { timestamp := 1,
                                requiredAssistance := some ["Food"],
                                numberOfPeople := some 4,
                                urgencyLevel := some "CRITICAL" },
             timestamp := 7 } :=
  (urgency_critical_text
    [("u", { state := AidBot.BotState.awaiting_urgency_level,
             emergencyData := { timestamp := 1,
                                requiredAssistance := some ["Food"],
                                numberOfPeople := some 4 },
             timestamp := 2 })]
    "u"
    { state := AidBot.BotState.awaiting_urgency_level,
      emergencyData := { timestamp := 1,
                         requiredAssistance := some ["Food"],
                         numberOfPeople := some 4 },
      timestamp := 2 }
    (some "CRITICAL") 7 (by decide) (by decide)).2

/-- C6 counterexample.  First conjunct: a quick-reply event carrying
payload "URGENCY_CRITICAL" (text equal to the payload) at the urgency step
stores nothing and re-prompts the urgency options — `urgencyLevel` is not
set to "CRITICAL" and the step does not advance.  Second conjunct: even
the accepted Critical selection advances to the location step with the
location prompt, not to the people-count step with the people prompt as
the claim states. -/
theorem urgency_payload_counterexample :
    AidBot.handleMessage
        [("u", { state := AidBot.BotState.awaiting_urgency_level,
                 emergencyData := { timestamp := 0,
                                    requiredAssistance := some [] },
                 timestamp := 0 })]
        "u"
        { text := some "URGENCY_CRITICAL", attachments := [],
          quickReply := some "URGENCY_CRITICAL" } 9 =
      ([("u", { state := AidBot.BotState.awaiting_urgency_level,
                emergencyData := { timestamp := 0,
                                   requiredAssistance := some [] },
                timestamp := 0 })],
       [AidBot.OutMsg.urgencyLevelOptions]) ∧
    AidBot.handleMessage
        [("u", { state := AidBot.BotState.awaiting_urgency_level,
                 emergencyData := { timestamp := 0,
                                    requiredAssistance := some [] },
                 timestamp := 0 })]
        "u"
        { text := some "Critical", attachments := [],
          quickReply := some "CRITICAL" } 9 =
      ([("u", { state := AidBot.BotState.awaiting_location,
                emergencyData := { timestamp := 0,
                                   requiredAssistance := some [],
                                   urgencyLevel := some "CRITICAL" },
                timestamp := 9 })],
       [AidBot.OutMsg.askLocation]) := by
  exact ⟨by rfl, by rfl⟩

/-! ## Claim C5 — skip keyword at optional steps -/

/-- C5 (code bug).  The verification-document prompt tells the user to
"type SKIP to continue", but the text flow has no handler at all for the
`awaiting_verification_doc` state: typing "SKIP" there falls through to
the did-not-understand fallback and the session does not advance (first
conjunct) — contradicting both the claim and the bot's own prompt.  At the
additional-info step, by contrast, "SKIP" is honored: no `additionalInfo`
is written and the request is finalized (second conjunct). -/
theorem skip_at_verification_doc_eval :
    AidBot.handleMessage
        [("u", { state := AidBot.BotState.awaiting_verification_doc,
                 emergencyData := { timestamp := 0,
                                    requiredAssistance := some [] },
                 timestamp := 0 })]
        "u" { text := some "SKIP", attachments := [], quickReply := none }
        9 =
      ([("u", { state := AidBot.BotState.awaiting_verification_doc,
                emergencyData := { timestamp := 0,
                                   requiredAssistance := some [] },
                timestamp := 0 })],
       [AidBot.OutMsg.fallbackDidNotUnderstand]) ∧
    AidBot.handleMessage
        [("u", { state := AidBot.BotState.awaiting_additional_info,
                 emergencyData := { timestamp := 0,
                                    requiredAssistance := some [] },
                 timestamp := 0 })]
        "u" { text := some "SKIP", attachments := [], quickReply := none }
        9 =
      ([], [AidBot.OutMsg.submittedAck]) := by
  exact ⟨by rfl, by rfl⟩

/-! ## Claim C2 — expiry sweep -/

/-- C2 (amended).  part_001's `cleanupOldStates` keeps exactly the sessions
whose `timestamp` is within `STATE_TIMEOUT_MS` of `now` (first conjunct),
removes the rest, and the returned count plus the survivors add up to the
whole store (second conjunct); a session whose activity timestamp was just
refreshed by `setState` survives a sweep running at the same instant, no
matter how old the session was (third conjunct).  server.ts's hourly
cleanup, by contrast, keeps exactly the sessions whose `createdAt` — a
field no update ever refreshes — is at most an hour old (fourth
conjunct). -/
theorem session_sweep_exact :
    (∀ (st : AidBot.Store) (now : Nat) (p : String × AidBot.UserState),
        p ∈ (AidBot.cleanupOldStates st now).1 ↔
          p ∈ st ∧ ¬(now - p.2.timestamp > AidBot.STATE_TIMEOUT_MS)) ∧
    (∀ (st : AidBot.Store) (now : Nat),
        (AidBot.cleanupOldStates st now).1.length +
          (AidBot.cleanupOldStates st now).2 = st.length) ∧
    (∀ (st : AidBot.Store) (senderId : String) (s : AidBot.BotState)
        (now : Nat),
        AidBot.getState
            ((AidBot.cleanupOldStates (AidBot.setState st senderId s now)
              now).1) senderId =
          AidBot.getState (AidBot.setState st senderId s now) senderId) ∧
    (∀ (pst : PetBot.PetStore) (now : Nat) (p : String × PetBot.UserSession),
        p ∈ (PetBot.sweepSessions pst now).1 ↔
          p ∈ pst ∧ ¬(p.2.createdAt < now - PetBot.ONE_HOUR_MS)) := by
  refine ⟨?_, ?_, ?_, ?_⟩
  · intro st now p
    unfold AidBot.cleanupOldStates
    simp [List.mem_filter, AidBot.expired]
  · intro st now
    unfold AidBot.cleanupOldStates
    dsimp only
    induction st with
    | nil => rfl
    | cons q tl ih =>
      by_cases h : AidBot.expired now q.2 = true
      · simp [List.filter_cons, h]
        omega
      · have h' : AidBot.expired now q.2 = false := by
          simp only [Bool.not_eq_true] at h
          exact h
        simp [List.filter_cons, h']
        omega
  · intro st senderId s now
    unfold AidBot.cleanupOldStates AidBot.getState
    apply alGet_filter
    intro p hp hk
    have ht := AidBot.setState_key_timestamp hp hk
    simp [AidBot.expired, ht, AidBot.STATE_TIMEOUT_MS]
  · intro pst now p
    unfold PetBot.sweepSessions
    simp [List.mem_filter, PetBot.stale]

/-- C2 counterexample.  In server.ts a session created at time 0 and
updated at time 7200000 (so its activity was just refreshed by
`updateUserSession`) is nevertheless removed by a sweep running at that
same instant, because the sweep compares `createdAt`, which the update did
not touch. -/
theorem petbot_sweep_removes_fresh_update :
    (alGet (PetBot.updateUserSession [("u", PetBot.freshSession 0)] "u"
        (fun s => { s with contactName := some "Ana" }) 7200000)
      "u").isSome = true ∧
    PetBot.sweepSessions
        (PetBot.updateUserSession [("u", PetBot.freshSession 0)] "u"
          (fun s => { s with contactName := some "Ana" }) 7200000)
        7200000 = ([], 1) := by
  constructor
  · rfl
  · rfl

/-! ## Claim C4 — store update contract -/

/-- C4 (amended).  part_001's `updateEmergencyData` merges the given fields
into `emergencyData` when a session exists, leaving `state` and the
activity `timestamp` unchanged (it never refreshes the timestamp), and is
a silent no-op when the session is absent.  server.ts's `updateUserSession`
merges into the existing session when present, but when the sender has no
session it does create one: a fresh entry-step session with the updates
applied. -/
theorem store_update_contract :
    (∀ (st : AidBot.Store) (senderId : String) (u : AidBot.UserState)
        (f : AidBot.EmergencyRequest → AidBot.EmergencyRequest),
        AidBot.getState st senderId = some u →
        AidBot.getState (AidBot.updateEmergencyData st senderId f)
            senderId =
          some { u with emergencyData := f u.emergencyData }) ∧
    (∀ (st : AidBot.Store) (senderId : String)
        (f : AidBot.EmergencyRequest → AidBot.EmergencyRequest),
        AidBot.getState st senderId = none →
        AidBot.updateEmergencyData st senderId f = st) ∧
    (∀ (pst : PetBot.PetStore) (senderId : String) (s : PetBot.UserSession)
        (f : PetBot.UserSession → PetBot.UserSession) (now : Nat),
        alGet pst senderId = some s →
        PetBot.updateUserSession pst senderId f now =
          alSet pst senderId (f s)) ∧
    (∀ (pst : PetBot.PetStore) (senderId : String)
        (f : PetBot.UserSession → PetBot.UserSession) (now : Nat),
        alGet pst senderId = none →
        alGet (PetBot.updateUserSession pst senderId f now) senderId =
          some (f (PetBot.freshSession now))) := by
  refine ⟨?_, ?_, ?_, ?_⟩
  · intro st senderId u f h
    unfold AidBot.getState at h ⊢
    unfold AidBot.updateEmergencyData
    rw [h]
    simp only
    exact alGet_set_self st senderId _
  · intro st senderId f h
    unfold AidBot.getState at h
    unfold AidBot.updateEmergencyData
    rw [h]
  · intro pst senderId s f now h
    unfold PetBot.updateUserSession
    rw [h]
  · intro pst senderId f now h
    unfold PetBot.updateUserSession PetBot.newUserSession
    rw [h]
    simp only
    exact alGet_set_self _ senderId _

/-- Witness for C4's theorem at concrete stores. -/
theorem store_update_contract_witness :
    AidBot.getState
        (AidBot.updateEmergencyData
          [("u", { state := AidBot.BotState.awaiting_contact_name,
                   emergencyData := { timestamp := 3,
                                      requiredAssistance := some [] },
                   timestamp := 5 })]
          "u" (fun d => { d with contactName := some "Ana" })) "u" =
      some { state := AidBot.BotState.awaiting_contact_name,
             emergencyData := { timestamp := 3,
                                requiredAssistance := some [],
                                contactName := some "Ana" },
             timestamp := 5 } ∧
    AidBot.updateEmergencyData ([] : AidBot.Store) "u"
        (fun d => { d with contactName := some "Ana" }) = [] ∧
    PetBot.updateUserSession [("u", PetBot.freshSession 2)] "u"
        (fun s => { s with contactNo := some "09123456789" }) 9 =
      alSet [("u", PetBot.freshSession 2)] "u"
        { PetBot.freshSession 2 with contactNo := some "09123456789" } ∧
    alGet (PetBot.updateUserSession ([] : PetBot.PetStore) "u"
        (fun s => { s with contactNo := some "09123456789" }) 9) "u" =
      some { PetBot.freshSession 9 with contactNo := some "09123456789" } :=
  ⟨store_update_contract.1
      [("u", { state := AidBot.BotState.awaiting_contact_name,
               emergencyData := { timestamp := 3,
                                  requiredAssistance := some [] },
               timestamp := 5 })] "u"
      { state := AidBot.BotState.awaiting_contact_name,
        emergencyData := { timestamp := 3, requiredAssistance := some [] },
        timestamp := 5 }
      (fun d => { d with contactName := some "Ana" }) (by decide),
   store_update_contract.2.1 [] "u"
      (fun d => { d with contactName := some "Ana" }) (by decide),
   store_update_contract.2.2.1 [("u", PetBot.freshSession 2)] "u"
      (PetBot.freshSession 2)
      (fun s => { s with contactNo := some "09123456789" }) 9 (by decide),
   store_update_contract.2.2.2 [] "u"
      (fun s => { s with contactNo := some "09123456789" }) 9 (by decide)⟩

/-- C4 counterexample.  The claim as stated fails twice: on an empty pet
store `updateUserSession` creates a session (the claim says absent sender
means no-op), and part_001's `updateEmergencyData` leaves the activity
timestamp at its old value 5 — it takes no clock input at all — where the
claim says the timestamp is refreshed. -/
theorem store_update_claim_counterexample :
    (alGet (PetBot.updateUserSession ([] : PetBot.PetStore) "u"
        (fun s => { s with contactName := some "Ana" }) 9) "u").isSome =
      true ∧
    Option.map (fun u => u.timestamp)
        (AidBot.getState
          (AidBot.updateEmergencyData
            [("u", { state := AidBot.BotState.awaiting_contact_name,
                     emergencyData := { timestamp := 3,
                                        requiredAssistance := some [] },
                     timestamp := 5 })]
            "u" (fun d => { d with contactName := some "Ana" })) "u") =
      some 5 := by
  constructor
  · rfl
  · rfl
